import Mathlib

/-!
Shallow embedding of `src/bulk_scanner.py` (MarketScanner).

Conventions of the embedding:
* Prices, volumes and indicator values are modelled as `ℚ`.
* A pandas `NaN` cell is modelled as `none : Option ℚ`; comparisons
  involving `NaN` evaluate to `False` in pandas, which `oGT` mirrors.
* The ADX column is kept abstract: it is carried as input data of a
  ticker's deep history rather than recomputed, because its smoothed
  computation involves floating-point `inf`/`NaN` division semantics that
  no claim depends on.  The SMA10/SMA20 columns are computed from the
  close series exactly as `Close.rolling(n).mean()` does.
* A raised Python exception is modelled as `Except.error ()`; the
  `try/except: continue` of the per-ticker loop is the `scanLoop` match.
* External effects (yfinance fetches, the ticker file) are inputs of the
  `Env` structure; `run_main` returns the pair (candidate list, status
  string) that the source hands to `send_sniper_email`.
* Decimal rounding and string formatting applied to the report fields
  (`round(...)`, f-strings) are presentation only and elided; candidate
  records carry the exact rational values.
-/

attribute [local semireducible] Rat.add Rat.mul Rat.sub Rat.inv Rat.ofScientific

/-- Pandas-style strict greater-than on possibly-NaN scalars:
any comparison with `NaN` (here `none`) is `false`. -/
def oGT (a b : Option ℚ) : Bool :=
  match a, b with
  | some x, some y => decide (y < x)
  | _, _ => false

/-- Python `a or b` for a possibly-missing float `a`:
`None` and `0` are falsy, so they fall through to `b`. -/
def pyOr (a : Option ℚ) (b : ℚ) : ℚ :=
  match a with
  | none => b
  | some x => if x = 0 then b else x

/-- `Series.mean()` of a list of rationals. -/
def listMean (xs : List ℚ) : ℚ := xs.sum / xs.length

/-- The value of `xs.rolling(n).mean()` at position `i` (pandas semantics:
`NaN` for the first `n - 1` positions, else the mean of the trailing
window of `n` values ending at `i`). -/
def rollingMeanAt (n : ℕ) (xs : List ℚ) (i : ℕ) : Option ℚ :=
  if i + 1 < n then none
  else some (((xs.drop (i + 1 - n)).take n).sum / n)

/-- The whole column `xs.rolling(n).mean()`. -/
def rollingMean (n : ℕ) (xs : List ℚ) : List (Option ℚ) :=
  (List.range xs.length).map (rollingMeanAt n xs)

/-- The fields of `t.info` that `run_main` reads. -/
structure TickerInfo where
  marketCap : Option ℚ
  currentPrice : Option ℚ
  regularMarketPrice : Option ℚ
  deriving DecidableEq

/-- One bar of the 250-day deep history: the close, and the ADX value the
indicator pass attaches to that bar (`none` = NaN; kept abstract, see the
file comment). -/
structure DeepRow where
  close : ℚ
  adx : Option ℚ
  deriving DecidableEq

/-- Everything the provider returns for one ticker symbol. -/
structure TickerData where
  info : TickerInfo
  volHistory : List ℚ
  deepHistory : List DeepRow
  deriving DecidableEq

/-- The indicator frame produced by `calculate_indicators`: the close
column and the ADX column (SMA columns are derived by the accessors). -/
structure Frame where
  closes : List ℚ
  adx : List (Option ℚ)
  deriving DecidableEq

/-- `calculate_indicators` restricted to the columns the scan reads. -/
def calculate_indicators (rows : List DeepRow) : Frame :=
  { closes := rows.map DeepRow.close, adx := rows.map DeepRow.adx }

/-- `df['Close']` at row `i` (`none` when out of range). -/
def Frame.closeAt (f : Frame) (i : ℕ) : Option ℚ := f.closes.get? i

/-- `df['SMA10']` at row `i`. -/
def Frame.sma10At (f : Frame) (i : ℕ) : Option ℚ :=
  if i < f.closes.length then rollingMeanAt 10 f.closes i else none

/-- `df['SMA20']` at row `i`. -/
def Frame.sma20At (f : Frame) (i : ℕ) : Option ℚ :=
  if i < f.closes.length then rollingMeanAt 20 f.closes i else none

/-- `df['ADX']` at row `i`. -/
def Frame.adxAt (f : Frame) (i : ℕ) : Option ℚ := (f.adx.get? i).join

/-- `df['ADX'].shift(1)` at row `i` (NaN at row 0). -/
def Frame.adxShiftAt (f : Frame) (i : ℕ) : Option ℚ :=
  if i = 0 then none else f.adxAt (i - 1)

/-- `is_trending` of the source (line 141): `close > SMA10 > SMA20`. -/
def is_trending (close sma10 sma20 : Option ℚ) : Bool :=
  oGT close sma10 && oGT sma10 sma20

/-- `is_accelerating` of the source (line 142): `ADX > 20` and ADX above
the prior bar's ADX. -/
def is_accelerating (adx yadx : Option ℚ) : Bool :=
  oGT adx (some 20) && oGT adx yadx

/-- The row mask of the historical-signal selection (source lines
146-147): `(Close > SMA10) & (SMA10 > SMA20) & (ADX > 20) &
(ADX > ADX.shift(1))`, elementwise with pandas NaN semantics. -/
def sigMask (f : Frame) (i : ℕ) : Bool :=
  oGT (f.closeAt i) (f.sma10At i) && oGT (f.sma10At i) (f.sma20At i) &&
    oGT (f.adxAt i) (some 20) && oGT (f.adxAt i) (f.adxShiftAt i)

/-- `hist_signals`: the (positional) index list of the rows where the
mask holds, in ascending order. -/
def hist_signals (f : Frame) : List ℕ :=
  (List.range f.closes.length).filter (sigMask f)

/-- One iteration of the backtest loop (source lines 150-156): a signal
index contributes only when `idx + 3 < len(df)`; the 3-bar forward
return is `(close[idx+3] - close[idx]) / close[idx]`.
Accumulator = (wins, total_signals, total_return). -/
def btStep (closes : List ℚ) (acc : ℕ × ℕ × ℚ) (idx : ℕ) : ℕ × ℕ × ℚ :=
  if idx + 3 < closes.length then
    let ret := (closes.getD (idx + 3) 0 - closes.getD idx 0) / closes.getD idx 0
    (if 0 < ret then acc.1 + 1 else acc.1, acc.2.1 + 1, acc.2.2 + ret)
  else acc

/-- The whole backtest loop over the signal-index list. -/
def btAccum (closes : List ℚ) (sigs : List ℕ) : ℕ × ℕ × ℚ :=
  sigs.foldl (btStep closes) (0, 0, 0)

/-- `win_rate` and `avg_3d_return` (source lines 158-159), as percentages;
both are 0 when no signal had a defined forward return. -/
def backtestStats (closes : List ℚ) (sigs : List ℕ) : ℚ × ℚ :=
  let acc := btAccum closes sigs
  (if 0 < acc.2.1 then (acc.1 : ℚ) / acc.2.1 * 100 else 0,
   if 0 < acc.2.1 then acc.2.2 / acc.2.1 * 100 else 0)

/-- The 3-bar forward return at a signal index. -/
def fwdRet (closes : List ℚ) (idx : ℕ) : ℚ :=
  (closes.getD (idx + 3) 0 - closes.getD idx 0) / closes.getD idx 0

/-- The forward returns of the signals that the backtest actually counts
(those with at least three strictly later bars). -/
def countedRets (closes : List ℚ) (sigs : List ℕ) : List ℚ :=
  (sigs.filter (fun i => decide (i + 3 < closes.length))).map (fwdRet closes)

/-- A row of the final report (one `all_results` entry, source lines
163-172), with exact rational values in place of the rounded/formatted
ones. -/
structure Candidate where
  ticker : String
  winRate : ℚ
  expRet : ℚ
  adx : Option ℚ
  price : ℚ
  stopLoss : ℚ
  targetPrice : ℚ
  relVol : ℚ
  deriving DecidableEq

/-- `info.get('marketCap', 0)`. -/
def mktCapOf (d : TickerData) : ℚ := d.info.marketCap.getD 0

/-- `info.get('currentPrice') or info.get('regularMarketPrice') or 0`. -/
def priceOf (d : TickerData) : ℚ :=
  pyOr d.info.currentPrice (pyOr d.info.regularMarketPrice 0)

/-- `vol_df['Volume'].iloc[:-1].mean()`. -/
def avgVol20 (d : TickerData) : ℚ := listMean d.volHistory.dropLast

/-- `vol_df['Volume'].iloc[-1]`. -/
def todayVol (d : TickerData) : ℚ := d.volHistory.getLast?.getD 0

/-- `rel_vol = today_vol / avg_vol_20d if avg_vol_20d > 0 else 0`. -/
def relVolOf (d : TickerData) : ℚ :=
  if 0 < avgVol20 d then todayVol d / avgVol20 d else 0

/-- The indicator frame of a ticker's deep history. -/
def frameOf (d : TickerData) : Frame := calculate_indicators d.deepHistory

/-- The live filter on the most recent bar (source lines 137-144):
`today = df.iloc[-1]`, `yesterday = df.iloc[-2]`, then
`is_trending and is_accelerating`. -/
def liveOk (f : Frame) : Bool :=
  let n := f.closes.length
  is_trending (f.closeAt (n - 1)) (f.sma10At (n - 1)) (f.sma20At (n - 1)) &&
    is_accelerating (f.adxAt (n - 1)) (f.adxAt (n - 2))

/-- The backtest statistics of a frame. -/
def statsOf (f : Frame) : ℚ × ℚ := backtestStats f.closes (hist_signals f)

/-- The body of the per-ticker `try` block (source lines 108-174).
`Except.error ()` models a raised exception (here: indexing `iloc[-2]`
with fewer than two deep-history rows); `.ok none` models `continue`
after a failed filter; `.ok (some c)` models appending `c` to
`all_results`. -/
def processTicker (sym : String) (d : TickerData) : Except Unit (Option Candidate) :=
  if mktCapOf d < 100000000 ∨ priceOf d < 1 then .ok none
  else if d.volHistory.length < 20 then .ok none
  else if avgVol20 d < 300000 ∨ relVolOf d < 1.5 then .ok none
  else if d.deepHistory.length < 2 then .error ()
  else
    let f := frameOf d
    if liveOk f then
      let s := statsOf f
      if 55 ≤ s.1 ∧ 3.0 ≤ s.2 then
        .ok (some { ticker := sym, winRate := s.1, expRet := s.2,
                    adx := f.adxAt (f.closes.length - 1),
                    price := priceOf d, stopLoss := priceOf d * 0.99,
                    targetPrice := priceOf d * 1.03, relVol := relVolOf d })
      else .ok none
    else .ok none

/-- Fetch-then-process for one symbol; a provider exception surfaces as
`Except.error` exactly like an in-body exception. -/
def runTicker (fetch : String → Except Unit TickerData) (sym : String) :
    Except Unit (Option Candidate) :=
  match fetch sym with
  | .error e => .error e
  | .ok d => processTicker sym d

/-- The scan loop (source lines 107-176): any exception skips the ticker
(`except: continue`), a filtered-out ticker is skipped, a kept candidate
is appended. -/
def scanLoop (fetch : String → Except Unit TickerData) : List String → List Candidate
  | [] => []
  | sym :: rest =>
    match runTicker fetch sym with
    | .error _ => scanLoop fetch rest
    | .ok none => scanLoop fetch rest
    | .ok (some c) => c :: scanLoop fetch rest

/-- `get_market_tide` (source lines 27-39).  The input is the SPY fetch:
`Except.error ()` models a raised exception inside the `try`.  The
formatted numbers of the f-string messages are elided. -/
def get_market_tide (spyFetch : Except Unit (List ℚ)) : Bool × String :=
  match spyFetch with
  | .error _ => (true, "Proceeding: Tide check error.")
  | .ok spy =>
    if spy.isEmpty then (true, "Proceeding: SPY data unavailable.")
    else
      let spy_sma20 : Option ℚ := rollingMeanAt 20 spy (spy.length - 1)
      let current_spy : Option ℚ := spy.getLast?
      if oGT spy_sma20 current_spy then (false, "Market Tide is LOW (SPY < SMA20).")
      else (true, "Market Tide is Healthy.")

/-- The external world of one run: the SPY fetch, the ticker file, and
the per-symbol provider. -/
structure Env where
  spy : Except Unit (List ℚ)
  tickerFileExists : Bool
  tickerFileLines : List String
  fetch : String → Except Unit TickerData

/-- Python `str.strip()`: drop leading and trailing whitespace. -/
def pyStrip (s : String) : String :=
  ⟨((s.data.dropWhile Char.isWhitespace).reverse.dropWhile Char.isWhitespace).reverse⟩

/-- Python `str.upper()` (ASCII range, which covers ticker symbols). -/
def pyUpper (s : String) : String := ⟨s.data.map Char.toUpper⟩

/-- `[line.strip().upper() for line in f if line.strip()]`. -/
def tickersOf (env : Env) : List String :=
  (env.tickerFileLines.filter (fun l => !(pyStrip l).data.isEmpty)).map
    (fun l => pyUpper (pyStrip l))

/-- `run_main` (source lines 87-180), returning the pair that is handed
to `send_sniper_email`: the candidate list and the status string.  Note
that the abort on a failed tide check (source lines 94-96) is commented
out in the source, so only the tide MESSAGE is used. -/
def run_main (env : Env) : List Candidate × String :=
  let tide := get_market_tide env.spy
  if env.tickerFileExists = false then
    ([], "Error: tickers.txt not found in repository.")
  else
    (scanLoop env.fetch (tickersOf env), tide.2)

/-! Concrete demonstration data: a 100-bar deep history whose backtest
has exactly 20 counted signals, 11 of them winners, with total return
exactly 0.6 — so `win_rate = 55` and `avg_3d_return = 3.0` exactly. -/

def demoCloses : List ℚ :=
[
  1500, 1525, 1550, 1575, 1600, 1625, 1650, 1675, 1700, 1725, 1750, 1775,
  1800, 1825, 1850, 1875, 1900, 1925, 1950, 2000, 2010, 2020, 2060, 2100,
  2110, 2120, 2163, 2200, 2210, 2220, 2266, 2300, 2310, 2320, 2369, 2400,
  2410, 2420, 2472, 2500, 2510, 2520, 2575, 2600, 2610, 2620, 2678, 2700,
  2710, 2720, 2781, 2800, 2810, 2820, 2884, 2900, 2910, 2920, 2987, 3000,
  3010, 3020, 3900, 3930, 3915, 3915, 3930, 3960, 3945, 3945, 3960, 3990,
  3975, 3975, 3990, 4020, 4005, 4005, 4020, 4050, 4035, 4035, 4050, 4080,
  4065, 4065, 4080, 4110, 4095, 4095, 4110, 4140, 4125, 4125, 4140, 4170,
  4155, 4155, 4170, 4220
]

def demoAdxVals : List ℚ :=
[
  0, 0, 0, 0, 0, 0, 0, 0, 0, 0, 0, 0, 0, 0, 0, 0, 0, 0, 0, 25, 0, 0, 0, 25,
  0, 0, 0, 25, 0, 0, 0, 25, 0, 0, 0, 25, 0, 0, 0, 25, 0, 0, 0, 25, 0, 0, 0,
  25, 0, 0, 0, 25, 0, 0, 0, 25, 0, 0, 0, 25, 0, 0, 0, 25, 0, 0, 0, 25, 0,
  0, 0, 25, 0, 0, 0, 25, 0, 0, 0, 25, 0, 0, 0, 25, 0, 0, 0, 25, 0, 0, 0,
  25, 0, 0, 0, 25, 0, 0, 0, 25
]

def demoRows : List DeepRow :=
  List.zipWith (fun c a => { close := c, adx := some a }) demoCloses demoAdxVals

def demoTicker : TickerData :=
  { info := { marketCap := some 500000000, currentPrice := some 10,
              regularMarketPrice := none },
    volHistory := List.replicate 20 1000000 ++ [2000000],
    deepHistory := demoRows }

def demoCand : Candidate :=
  { ticker := "DEMO", winRate := 55, expRet := 3, adx := some 25,
    price := 10, stopLoss := 9.9, targetPrice := 10.3, relVol := 2 }

/-- A 20-day SPY series whose last close (50) is far below its 20-day
average (97.5): an unhealthy market tide. -/
def demoSpyLow : List ℚ := List.replicate 19 100 ++ [50]

def demoEnv : Env :=
  { spy := .ok demoSpyLow, tickerFileExists := true,
    tickerFileLines := ["demo"], fetch := fun _ => .ok demoTicker }


/-! ## Helper lemmas -/

/-- Closed form of the backtest loop: starting from any accumulator, the
fold adds the number of strictly positive counted forward returns, the
number of counted signals, and the sum of the counted forward returns. -/
theorem btFoldl_closed (closes : List ℚ) (sigs : List ℕ) (acc : ℕ × ℕ × ℚ) :
    sigs.foldl (btStep closes) acc =
      (acc.1 + ((countedRets closes sigs).filter (fun r => decide (0 < r))).length,
       acc.2.1 + (countedRets closes sigs).length,
       acc.2.2 + (countedRets closes sigs).sum) := by
  induction sigs generalizing acc with
  | nil => simp [countedRets]
  | cons i rest ih =>
    rw [List.foldl_cons, ih]
    by_cases h : i + 3 < closes.length
    · by_cases hp : 0 < (closes.getD (i + 3) 0 - closes.getD i 0) / closes.getD i 0
      · simp only [btStep, countedRets, List.filter_cons, fwdRet, h, hp, if_pos,
          decide_eq_true_eq, List.map_cons, List.length_cons, List.sum_cons, Prod.mk.injEq]
        simp [hp]
        refine ⟨by omega, by omega, by ring⟩
      · simp only [btStep, countedRets, List.filter_cons, fwdRet, h, hp, if_pos, if_neg,
          decide_eq_true_eq, List.map_cons, List.length_cons, List.sum_cons, Prod.mk.injEq]
        simp [hp]
        refine ⟨by omega, by ring⟩
    · simp [btStep, countedRets, List.filter_cons, h]

/-- The backtest result of the demonstration ticker: 20 counted signals,
11 winners, total return 3/5 — exactly the gate boundary. -/
theorem demo_stats : statsOf (frameOf demoTicker) = (55, 3) := by rfl

/-- The demonstration ticker is kept, producing exactly `demoCand`. -/
theorem demo_processTicker :
    processTicker "DEMO" demoTicker = .ok (some demoCand) := by rfl

/-- The full demonstration run: unhealthy tide message, one candidate. -/
theorem demo_run_main :
    run_main demoEnv = ([demoCand], "Market Tide is LOW (SPY < SMA20).") := by rfl

/-- The demonstration SPY series is an unhealthy tide. -/
theorem demo_tide :
    get_market_tide (.ok demoSpyLow) = (false, "Market Tide is LOW (SPY < SMA20).") := by rfl

/-- Inversion of a kept candidate: every gate of the `processTicker`
if-chain passed, and the candidate is exactly the record the source
appends. -/
theorem processTicker_kept {sym : String} {d : TickerData} {c : Candidate}
    (h : processTicker sym d = .ok (some c)) :
    100000000 ≤ mktCapOf d ∧ 1 ≤ priceOf d ∧ 20 ≤ d.volHistory.length ∧
      300000 ≤ avgVol20 d ∧ (1.5 : ℚ) ≤ relVolOf d ∧ 2 ≤ d.deepHistory.length ∧
      liveOk (frameOf d) = true ∧
      55 ≤ (statsOf (frameOf d)).1 ∧ (3.0 : ℚ) ≤ (statsOf (frameOf d)).2 ∧
      c = { ticker := sym, winRate := (statsOf (frameOf d)).1,
            expRet := (statsOf (frameOf d)).2,
            adx := (frameOf d).adxAt ((frameOf d).closes.length - 1),
            price := priceOf d, stopLoss := priceOf d * 0.99,
            targetPrice := priceOf d * 1.03, relVol := relVolOf d } := by
  simp only [processTicker] at h
  by_cases h1 : mktCapOf d < 100000000 ∨ priceOf d < 1
  · rw [if_pos h1] at h; simp at h
  rw [if_neg h1] at h
  by_cases h2 : d.volHistory.length < 20
  · rw [if_pos h2] at h; simp at h
  rw [if_neg h2] at h
  by_cases h3 : avgVol20 d < 300000 ∨ relVolOf d < 1.5
  · rw [if_pos h3] at h; simp at h
  rw [if_neg h3] at h
  by_cases h4 : d.deepHistory.length < 2
  · rw [if_pos h4] at h; simp at h
  rw [if_neg h4] at h
  by_cases h5 : liveOk (frameOf d) = true
  · rw [if_pos h5] at h
    by_cases h6 : 55 ≤ (statsOf (frameOf d)).1 ∧ (3.0 : ℚ) ≤ (statsOf (frameOf d)).2
    · rw [if_pos h6] at h
      simp only [Except.ok.injEq, Option.some.injEq] at h
      rcases not_or.mp h1 with ⟨h1a, h1b⟩
      rcases not_or.mp h3 with ⟨h3a, h3b⟩
      exact ⟨not_lt.mp h1a, not_lt.mp h1b, not_lt.mp h2, not_lt.mp h3a,
        not_lt.mp h3b, not_lt.mp h4, h5, h6.1, h6.2, h.symm⟩
    · rw [if_neg h6] at h; simp at h
  · rw [if_neg h5] at h; simp at h

/-- Membership in the scan loop's output comes from some symbol of the
list whose processing succeeded with a kept candidate. -/
theorem mem_scanLoop {fetch : String → Except Unit TickerData}
    {syms : List String} {c : Candidate} (h : c ∈ scanLoop fetch syms) :
    ∃ sym ∈ syms, runTicker fetch sym = .ok (some c) := by
  induction syms with
  | nil => simp [scanLoop] at h
  | cons s rest ih =>
    simp only [scanLoop] at h
    cases hr : runTicker fetch s with
    | error e =>
      rw [hr] at h
      obtain ⟨t, ht, hrt⟩ := ih h
      exact ⟨t, List.mem_cons_of_mem _ ht, hrt⟩
    | ok o =>
      cases o with
      | none =>
        rw [hr] at h
        obtain ⟨t, ht, hrt⟩ := ih h
        exact ⟨t, List.mem_cons_of_mem _ ht, hrt⟩
      | some c0 =>
        rw [hr] at h
        rcases List.mem_cons.mp h with rfl | hmem
        · exact ⟨s, List.mem_cons_self s rest, hr⟩
        · obtain ⟨t, ht, hrt⟩ := ih hmem
          exact ⟨t, List.mem_cons_of_mem _ ht, hrt⟩

/-! ## Claims -/

/-- Claim C1, counterexample: with the demonstration environment the
benchmark's last close is below its 20-day average (the tide flag is
`false`), yet the scan still processes the ticker list and returns a
non-empty candidate set — it does not abort, because the abort lines are
commented out in the source. -/
theorem C1_cex_tide_low_scan_proceeds :
    (get_market_tide demoEnv.spy).1 = false ∧
      (run_main demoEnv).1 = [demoCand] ∧ (run_main demoEnv).1 ≠ [] := by
  refine ⟨?_, ?_, ?_⟩
  · rw [show demoEnv.spy = .ok demoSpyLow from rfl, demo_tide]
  · rw [demo_run_main]
  · rw [demo_run_main]; simp

/-- Claim C1 (amended): the tide is computed but its boolean is unused —
whenever the ticker file exists, `run_main` scans the full ticker list
regardless of the benchmark's position versus its 20-day average, and
surfaces the tide status message alongside the scan results. -/
theorem C1_amended_scan_ignores_tide (env : Env)
    (h : env.tickerFileExists = true) :
    run_main env =
      (scanLoop env.fetch (tickersOf env), (get_market_tide env.spy).2) := by
  simp [run_main, h]

/-- Witness for C1 (amended) at the demonstration environment. -/
theorem C1_amended_scan_ignores_tide_witness :
    run_main demoEnv =
      (scanLoop demoEnv.fetch (tickersOf demoEnv),
        (get_market_tide demoEnv.spy).2) :=
  C1_amended_scan_ignores_tide demoEnv rfl

/-- Claim C2, counterexample: the demonstration ticker's backtest hits
the boundary exactly (`win_rate = 55`, `avg_3d_return = 3.0`) and the
candidate IS kept — the source compares with `>=`, not strict `>`. -/
theorem C2_cex_boundary_candidate_kept :
    (statsOf (frameOf demoTicker)).1 = 55 ∧
      (statsOf (frameOf demoTicker)).2 = 3 ∧
      processTicker "DEMO" demoTicker = .ok (some demoCand) := by
  refine ⟨?_, ?_, demo_processTicker⟩ <;> rw [demo_stats]

/-- Claim C2 (amended): a candidate record is kept only if its backtest
win rate is at least 55 and its expected 3-day return is at least 3.0
(greater-or-equal comparisons); in particular a ticker whose win rate
equals exactly 55.0 is included, not excluded.  The kept record carries
exactly those statistics. -/
theorem C2_amended_gate_is_ge (sym : String) (d : TickerData) (c : Candidate)
    (h : processTicker sym d = .ok (some c)) :
    55 ≤ (statsOf (frameOf d)).1 ∧ (3.0 : ℚ) ≤ (statsOf (frameOf d)).2 ∧
      c.winRate = (statsOf (frameOf d)).1 ∧
      c.expRet = (statsOf (frameOf d)).2 := by
  obtain ⟨-, -, -, -, -, -, -, g8, g9, hc⟩ := processTicker_kept h
  exact ⟨g8, g9, by rw [hc], by rw [hc]⟩

/-- Witness for C2 (amended) at the demonstration ticker. -/
theorem C2_amended_gate_is_ge_witness :
    processTicker "DEMO" demoTicker = .ok (some demoCand) ∧
      (55 ≤ (statsOf (frameOf demoTicker)).1 ∧
        (3.0 : ℚ) ≤ (statsOf (frameOf demoTicker)).2 ∧
        demoCand.winRate = (statsOf (frameOf demoTicker)).1 ∧
        demoCand.expRet = (statsOf (frameOf demoTicker)).2) :=
  ⟨demo_processTicker,
    C2_amended_gate_is_ge "DEMO" demoTicker demoCand demo_processTicker⟩

/-- Claim C3: for a non-empty list of counted forward returns, the
computed `win_rate` is 100 times the fraction of strictly positive
forward returns and the computed average 3-day return is 100 times
their arithmetic mean. -/
theorem C3_backtest_aggregation (f : Frame)
    (h : countedRets f.closes (hist_signals f) ≠ []) :
    (statsOf f).1 =
      100 * (((countedRets f.closes (hist_signals f)).filter
          (fun r => decide (0 < r))).length : ℚ) /
        ((countedRets f.closes (hist_signals f)).length : ℚ) ∧
    (statsOf f).2 =
      100 * (countedRets f.closes (hist_signals f)).sum /
        ((countedRets f.closes (hist_signals f)).length : ℚ) := by
  have hlen : 0 < (countedRets f.closes (hist_signals f)).length :=
    List.length_pos.mpr h
  have hb := btFoldl_closed f.closes (hist_signals f) (0, 0, 0)
  simp only [statsOf, backtestStats, btAccum, hb, Nat.zero_add, zero_add]
  rw [if_pos hlen, if_pos hlen]
  constructor <;> ring

/-- Witness for C3 at the demonstration ticker. -/
theorem C3_backtest_aggregation_witness :
    countedRets (frameOf demoTicker).closes (hist_signals (frameOf demoTicker)) ≠ [] ∧
      ((statsOf (frameOf demoTicker)).1 =
        100 * (((countedRets (frameOf demoTicker).closes
            (hist_signals (frameOf demoTicker))).filter
            (fun r => decide (0 < r))).length : ℚ) /
          ((countedRets (frameOf demoTicker).closes
            (hist_signals (frameOf demoTicker))).length : ℚ) ∧
      (statsOf (frameOf demoTicker)).2 =
        100 * (countedRets (frameOf demoTicker).closes
            (hist_signals (frameOf demoTicker))).sum /
          ((countedRets (frameOf demoTicker).closes
            (hist_signals (frameOf demoTicker))).length : ℚ)) := by
  have hne : countedRets (frameOf demoTicker).closes
      (hist_signals (frameOf demoTicker)) ≠ [] := by decide
  exact ⟨hne, C3_backtest_aggregation (frameOf demoTicker) hne⟩

/-- Claim C4: every record of the final result sequence comes from a
scanned symbol whose data passed every gate: market cap at least
100,000,000, price at least 1.00, trailing average volume at least
300,000, relative volume at least 1.5, the live trend/strength predicate
true on the most recent bar, and the backtest acceptance thresholds. -/
theorem C4_emitted_record_invariant (env : Env) (c : Candidate)
    (h : c ∈ (run_main env).1) :
    ∃ sym d, sym ∈ tickersOf env ∧ env.fetch sym = .ok d ∧
      100000000 ≤ mktCapOf d ∧ 1 ≤ priceOf d ∧ 300000 ≤ avgVol20 d ∧
      (1.5 : ℚ) ≤ relVolOf d ∧ liveOk (frameOf d) = true ∧
      55 ≤ (statsOf (frameOf d)).1 ∧ (3.0 : ℚ) ≤ (statsOf (frameOf d)).2 := by
  by_cases he : env.tickerFileExists = false
  · simp [run_main, he] at h
  · have h' : c ∈ scanLoop env.fetch (tickersOf env) := by
      simpa [run_main, he] using h
    obtain ⟨sym, hsym, hrt⟩ := mem_scanLoop h'
    cases hf : env.fetch sym with
    | error e => simp [runTicker, hf] at hrt
    | ok d =>
      simp only [runTicker, hf] at hrt
      obtain ⟨g1, g2, -, g4, g5, -, g7, g8, g9, -⟩ := processTicker_kept hrt
      exact ⟨sym, d, hsym, hf, g1, g2, g4, g5, g7, g8, g9⟩

/-- Witness for C4 at the demonstration environment. -/
theorem C4_emitted_record_invariant_witness :
    demoCand ∈ (run_main demoEnv).1 ∧
      ∃ sym d, sym ∈ tickersOf demoEnv ∧ demoEnv.fetch sym = .ok d ∧
        100000000 ≤ mktCapOf d ∧ 1 ≤ priceOf d ∧ 300000 ≤ avgVol20 d ∧
        (1.5 : ℚ) ≤ relVolOf d ∧ liveOk (frameOf d) = true ∧
        55 ≤ (statsOf (frameOf d)).1 ∧ (3.0 : ℚ) ≤ (statsOf (frameOf d)).2 := by
  have hm : demoCand ∈ (run_main demoEnv).1 := by
    rw [demo_run_main]; simp
  exact ⟨hm, C4_emitted_record_invariant demoEnv demoCand hm⟩

/-- Claim C5: at every bar with a predecessor, the historical selection
mask coincides with the live filter (`is_trending && is_accelerating`)
applied to that bar as "today" and its predecessor as "yesterday". -/
theorem C5_predicates_agree (f : Frame) (i : ℕ) (h : 1 ≤ i) :
    sigMask f i =
      (is_trending (f.closeAt i) (f.sma10At i) (f.sma20At i) &&
        is_accelerating (f.adxAt i) (f.adxAt (i - 1))) := by
  have hi : i ≠ 0 := by omega
  simp only [sigMask, is_trending, is_accelerating, Frame.adxShiftAt, if_neg hi]
  cases oGT (f.closeAt i) (f.sma10At i) <;>
    cases oGT (f.sma10At i) (f.sma20At i) <;>
      cases oGT (f.adxAt i) (some 20) <;>
        cases oGT (f.adxAt i) (f.adxAt (i - 1)) <;> rfl

/-- Witness for C5 at bar 20 of the demonstration frame. -/
theorem C5_predicates_agree_witness :
    sigMask (frameOf demoTicker) 20 =
      (is_trending ((frameOf demoTicker).closeAt 20)
          ((frameOf demoTicker).sma10At 20) ((frameOf demoTicker).sma20At 20) &&
        is_accelerating ((frameOf demoTicker).adxAt 20)
          ((frameOf demoTicker).adxAt 19)) :=
  C5_predicates_agree (frameOf demoTicker) 20 (by omega)

/-- Claim C6: with zero counted historical signals the backtest yields
`win_rate = 0` and `avg_3d_return = 0` (no division error), and the
acceptance gate `55 <= win_rate and 3.0 <= avg_3d_return` cannot hold. -/
theorem C6_zero_signals (f : Frame)
    (h : countedRets f.closes (hist_signals f) = []) :
    statsOf f = (0, 0) ∧
      ¬(55 ≤ (statsOf f).1 ∧ (3.0 : ℚ) ≤ (statsOf f).2) := by
  have hb := btFoldl_closed f.closes (hist_signals f) (0, 0, 0)
  rw [h] at hb
  simp only [List.filter_nil, List.length_nil, List.sum_nil, Nat.add_zero,
    add_zero] at hb
  have hs : statsOf f = (0, 0) := by
    simp only [statsOf, backtestStats, btAccum, hb]
    norm_num
  refine ⟨hs, ?_⟩
  rw [hs]
  norm_num

/-- Witness for C6 at a two-bar frame with no ADX values. -/
theorem C6_zero_signals_witness :
    countedRets (Frame.mk [1, 2] [none, none]).closes
        (hist_signals (Frame.mk [1, 2] [none, none])) = [] ∧
      (statsOf (Frame.mk [1, 2] [none, none]) = (0, 0) ∧
        ¬(55 ≤ (statsOf (Frame.mk [1, 2] [none, none])).1 ∧
          (3.0 : ℚ) ≤ (statsOf (Frame.mk [1, 2] [none, none])).2)) := by
  have h : countedRets (Frame.mk [1, 2] [none, none]).closes
      (hist_signals (Frame.mk [1, 2] [none, none])) = [] := by decide
  exact ⟨h, C6_zero_signals _ h⟩

/-- Claim C7: a ticker whose processing raises is skipped — removing it
from anywhere in the ticker list leaves the scan result unchanged, so
one failure neither aborts the scan nor disturbs the other results. -/
theorem C7_exception_skips_ticker (fetch : String → Except Unit TickerData)
    (sym : String) (as bs : List String)
    (h : runTicker fetch sym = .error ()) :
    scanLoop fetch (as ++ sym :: bs) = scanLoop fetch (as ++ bs) := by
  induction as with
  | nil => simp only [List.nil_append, scanLoop, h]
  | cons a rest ih =>
    cases hr : runTicker fetch a with
    | error e =>
      simp only [List.cons_append, scanLoop, hr, List.append_eq]
      exact ih
    | ok o =>
      cases o with
      | none =>
        simp only [List.cons_append, scanLoop, hr, List.append_eq]
        exact ih
      | some c0 =>
        simp only [List.cons_append, scanLoop, hr, List.append_eq]
        rw [ih]

/-- Witness for C7 with an always-raising fetch. -/
theorem C7_exception_skips_ticker_witness :
    runTicker (fun _ => .error ()) "BAD" = .error () ∧
      scanLoop (fun _ => .error ()) (["A"] ++ "BAD" :: ["B"]) =
        scanLoop (fun _ => .error ()) (["A"] ++ ["B"]) := by
  have h : runTicker (fun _ => .error ()) "BAD" = .error () := rfl
  exact ⟨h, C7_exception_skips_ticker (fun _ => .error ()) "BAD" ["A"] ["B"] h⟩

/-- Claim C8: a missing ticker file terminates the run with an empty
candidate list and an explanatory status (no exception), and an existing
but empty file scans zero tickers and yields an empty candidate list. -/
theorem C8_missing_or_empty_file (env : Env) :
    (env.tickerFileExists = false →
      run_main env = ([], "Error: tickers.txt not found in repository.")) ∧
    (env.tickerFileLines = [] → (run_main env).1 = []) := by
  constructor
  · intro h
    simp [run_main, h]
  · intro h
    by_cases he : env.tickerFileExists = false
    · simp [run_main, he]
    · simp [run_main, he, tickersOf, h, scanLoop]

/-- Witness for C8 at a missing-file environment and an empty-file
environment. -/
theorem C8_missing_or_empty_file_witness :
    run_main (Env.mk (.error ()) false ["AAA"] (fun _ => .error ())) =
        ([], "Error: tickers.txt not found in repository.") ∧
      (run_main (Env.mk (.error ()) true [] (fun _ => .error ()))).1 = [] :=
  ⟨(C8_missing_or_empty_file _).1 rfl, (C8_missing_or_empty_file _).2 rfl⟩

/-- Claim C9: within range, `SMA10` (resp. `SMA20`) is NaN exactly on the
first 9 (resp. 19) rows, and on every later row equals the arithmetic
mean of the trailing 10 (resp. 20) closes ending at that row. -/
theorem C9_sma_window (xs : List ℚ) (i : ℕ) (h : i < xs.length) :
    ((i < 9 → (rollingMean 10 xs).get? i = some none) ∧
      (9 ≤ i → (rollingMean 10 xs).get? i =
        some (some (((xs.drop (i - 9)).take 10).sum / 10)))) ∧
    ((i < 19 → (rollingMean 20 xs).get? i = some none) ∧
      (19 ≤ i → (rollingMean 20 xs).get? i =
        some (some (((xs.drop (i - 19)).take 20).sum / 20)))) := by
  have h10 : (rollingMean 10 xs).get? i = some (rollingMeanAt 10 xs i) := by
    rw [rollingMean, List.get?_map, List.get?_range h]
    rfl
  have h20 : (rollingMean 20 xs).get? i = some (rollingMeanAt 20 xs i) := by
    rw [rollingMean, List.get?_map, List.get?_range h]
    rfl
  refine ⟨⟨?_, ?_⟩, ?_, ?_⟩
  · intro hi
    rw [h10, rollingMeanAt, if_pos (by omega)]
  · intro hi
    rw [h10, rollingMeanAt, if_neg (by omega), show i + 1 - 10 = i - 9 by omega]
    norm_num
  · intro hi
    rw [h20, rollingMeanAt, if_pos (by omega)]
  · intro hi
    rw [h20, rollingMeanAt, if_neg (by omega), show i + 1 - 20 = i - 19 by omega]
    norm_num

/-- Witness for C9 at row 19 of a 20-element series. -/
theorem C9_sma_window_witness :
    ((19 < 9 → (rollingMean 10 [(1:ℚ), 2, 3, 4, 5, 6, 7, 8, 9, 10, 11, 12,
        13, 14, 15, 16, 17, 18, 19, 20]).get? 19 = some none) ∧
      (9 ≤ 19 → (rollingMean 10 [(1:ℚ), 2, 3, 4, 5, 6, 7, 8, 9, 10, 11, 12,
        13, 14, 15, 16, 17, 18, 19, 20]).get? 19 =
        some (some ((([(1:ℚ), 2, 3, 4, 5, 6, 7, 8, 9, 10, 11, 12, 13, 14,
          15, 16, 17, 18, 19, 20].drop (19 - 9)).take 10).sum / 10)))) ∧
    ((19 < 19 → (rollingMean 20 [(1:ℚ), 2, 3, 4, 5, 6, 7, 8, 9, 10, 11, 12,
        13, 14, 15, 16, 17, 18, 19, 20]).get? 19 = some none) ∧
      (19 ≤ 19 → (rollingMean 20 [(1:ℚ), 2, 3, 4, 5, 6, 7, 8, 9, 10, 11, 12,
        13, 14, 15, 16, 17, 18, 19, 20]).get? 19 =
        some (some ((([(1:ℚ), 2, 3, 4, 5, 6, 7, 8, 9, 10, 11, 12, 13, 14,
          15, 16, 17, 18, 19, 20].drop (19 - 19)).take 20).sum / 20)))) :=
  C9_sma_window [(1:ℚ), 2, 3, 4, 5, 6, 7, 8, 9, 10, 11, 12, 13, 14, 15, 16,
    17, 18, 19, 20] 19 (by decide)

/-- Claim C10: the backtest counts exactly the signals with at least
three strictly later bars — filtering the signal list down to those
indices leaves the accumulator unchanged, and appending any signal from
the last three bars (such as today's live signal) changes nothing. -/
theorem C10_counted_signals (closes : List ℚ) (sigs : List ℕ) :
    btAccum closes sigs =
      btAccum closes (sigs.filter (fun i => decide (i + 3 < closes.length))) ∧
    (∀ i : ℕ, closes.length ≤ i + 3 →
      btAccum closes (sigs ++ [i]) = btAccum closes sigs) := by
  constructor
  · rw [btAccum, btAccum, btFoldl_closed, btFoldl_closed]
    simp [countedRets, List.filter_filter]
  · intro i hi
    rw [btAccum, btAccum, List.foldl_append]
    simp only [List.foldl_cons, List.foldl_nil, btStep]
    rw [if_neg (by omega)]

/-- Witness for C10: appending an out-of-range signal index changes
nothing. -/
theorem C10_counted_signals_witness :
    btAccum [(1:ℚ), 2, 3, 4, 5] ([0, 9] ++ [9]) =
      btAccum [(1:ℚ), 2, 3, 4, 5] [0, 9] :=
  (C10_counted_signals [(1:ℚ), 2, 3, 4, 5] [0, 9]).2 9 (by decide)
